import Mathlib

/-!
Shallow embedding of the payment-reconciliation and duration-consistency core
of the taas-apis service.

The embedded code:
* `calculateDuration` and `updateDuration` from `src/common/helper.js`;
* `updateWorkPeriod` (the body of `processCreate` / `processUpdate`) from
  `src/eventHandlers/WorkPeriodPaymentEventHandler.js`.

Dates are epoch milliseconds (`Int`); durations are weeks (`Int`); monetary
amounts and day counts are `Int`.  JS truthiness is modelled explicitly where
the code branches on it.
-/

namespace Taas

/-- One week in milliseconds, the divisor `7 * 24 * 60 * 60 * 1000` used by
`calculateDuration`. -/
def weekMs : Int := 7 * 24 * 60 * 60 * 1000

/-- A `(startDate, endDate, duration)` triple with optional fields, the
input/output shape of `calculateDuration`.  The all-`none` value is the empty
object `{}` the function returns on insufficient data. -/
structure Triple where
  startDate : Option Int := none
  endDate : Option Int := none
  duration : Option Int := none
deriving DecidableEq, Repr

/-- JS truthiness of a date field: a represented date (a nonempty date string
in the source) is truthy; an absent field is falsy. -/
def truthyDate : Option Int → Bool
  | none => false
  | some _ => true

/-- JS truthiness of the numeric duration field: `0` is falsy, every other
number is truthy; an absent field is falsy. -/
def truthyDur : Option Int → Bool
  | none => false
  | some d => d != 0

/-- The two distinct `BadRequestError` messages `calculateDuration` throws:
the range error (end date not one or multiple whole weeks ahead of start
date) and the conflict error (supplied duration disagreeing with the actual
duration between the dates). -/
inductive CalcError where
  | invalidRange
  | conflict
deriving DecidableEq, Repr

/-- `calculateDuration` of `src/common/helper.js`.  The real division
`diffMs / weekMs` with the `Number.isInteger` / `< 1` guard is embedded as
the exact conditions `weekMs ∣ diff` and `diff < weekMs`; when the guard
passes, integer division is exact. -/
def calculateDuration (t : Triple) : Except CalcError Triple :=
  if truthyDate t.startDate ∧ ¬ truthyDate t.endDate ∧ truthyDur t.duration then
    Except.ok { startDate := t.startDate,
                endDate := some (t.startDate.getD 0 + t.duration.getD 0 * weekMs),
                duration := t.duration }
  else if ¬ truthyDate t.startDate ∧ truthyDate t.endDate ∧ truthyDur t.duration then
    Except.ok { startDate := some (t.endDate.getD 0 - t.duration.getD 0 * weekMs),
                endDate := t.endDate,
                duration := t.duration }
  else if truthyDate t.startDate ∧ truthyDate t.endDate then
    if ¬ (weekMs ∣ (t.endDate.getD 0 - t.startDate.getD 0)) ∨
        t.endDate.getD 0 - t.startDate.getD 0 < weekMs then
      Except.error CalcError.invalidRange
    else if truthyDur t.duration ∧
        (t.endDate.getD 0 - t.startDate.getD 0) / weekMs ≠ t.duration.getD 0 then
      Except.error CalcError.conflict
    else
      Except.ok { startDate := t.startDate, endDate := t.endDate,
                  duration := some ((t.endDate.getD 0 - t.startDate.getD 0) / weekMs) }
  else
    Except.ok {}

/-- The three duration fields, in the order `updateDuration` iterates them. -/
inductive DField where
  | startDate
  | endDate
  | duration
deriving DecidableEq, Repr

/-- A patch object handed to `updateDuration`: the three optional duration
fields plus the number of additional enumerable keys unrelated to duration
(`Object.keys(data).length` counts those too). -/
structure Patch where
  startDate : Option Int := none
  endDate : Option Int := none
  duration : Option Int := none
  extraKeys : Nat := 0
deriving DecidableEq, Repr

/-- `data[field]` lookup on a patch. -/
def patchVal (p : Patch) : DField → Option Int
  | .startDate => p.startDate
  | .endDate => p.endDate
  | .duration => p.duration

/-- `original[field]` lookup on a triple. -/
def origVal (t : Triple) : DField → Option Int
  | .startDate => t.startDate
  | .endDate => t.endDate
  | .duration => t.duration

/-- JS truthiness of `data[field]` on a patch. -/
def fieldTruthy (p : Patch) : DField → Bool
  | .startDate => truthyDate p.startDate
  | .endDate => truthyDate p.endDate
  | .duration => truthyDur p.duration

/-- The iteration order `['startDate', 'endDate', 'duration']`. -/
def allFields : List DField := [DField.startDate, DField.endDate, DField.duration]

/-- The `modifiedFields` reduction of `updateDuration`: the fields whose patch
value is truthy (`data[field] &&`) and differs from the original
(`!_.isEqual(data[field], original[field])`). -/
def modifiedFields (original : Triple) (p : Patch) : List DField :=
  allFields.filter (fun f => fieldTruthy p f && (patchVal p f != origVal original f))

/-- `Object.keys(data).length`: every enumerable key counts, the duration
fields and the unrelated ones alike. -/
def fieldsCount (p : Patch) : Nat :=
  (if p.startDate.isSome then 1 else 0) + (if p.endDate.isSome then 1 else 0) +
    (if p.duration.isSome then 1 else 0) + p.extraKeys

/-- The duration fields of a patch, as the triple `calculateDuration(data)`
receives in the multi-field branch. -/
def patchTriple (p : Patch) : Triple :=
  { startDate := p.startDate, endDate := p.endDate, duration := p.duration }

/-- The input built by the single-field branch of `updateDuration`: the first
modified field from the patch, the other two from the original (assigned even
when absent there, hence `Option` values). -/
def singleFieldInput (original : Triple) (p : Patch) (f0 : DField) : Triple :=
  { startDate := if f0 = DField.startDate then p.startDate else original.startDate,
    endDate := if f0 = DField.endDate then p.endDate else original.endDate,
    duration := if f0 = DField.duration then p.duration else original.duration }

/-- `updateDuration` of `src/common/helper.js`.  `Except.ok none` is the
implicit `undefined` return of the final fall-through (unreachable, since a
modified field is always a present key); `Except.ok (some ⟨none, none, none⟩)`
is the empty object. -/
def updateDuration (original : Triple) (p : Patch) : Except CalcError (Option Triple) :=
  match modifiedFields original p with
  | [] => Except.ok (some {})
  | f0 :: _ =>
    if fieldsCount p = 1 then
      (calculateDuration (singleFieldInput original p f0)).map some
    else if 1 < fieldsCount p then
      (calculateDuration (patchTriple p)).map some
    else
      Except.ok none

/-- A work period payment record, with the fields the event handler reads. -/
structure WorkPeriodPayment where
  status : String
  days : Int
  amount : Int
deriving DecidableEq, Repr

/-- A work period as loaded with its payments (`findById` with
`withPayments: true`, then `toJSON`). -/
structure WorkPeriod where
  id : String
  resourceBookingId : String
  daysPaid : Int
  paymentTotal : Int
  paymentStatus : String
  payments : List WorkPeriodPayment
deriving DecidableEq, Repr

/-- The `data` object the handler builds and, on change, writes through
`workPeriodModel.update(data)`: always exactly the three derived fields. -/
structure UpdateData where
  daysPaid : Int
  paymentTotal : Int
  paymentStatus : String
deriving DecidableEq, Repr

/-- The aggregation loop of the handler: starting from
`daysPaid = 0, paymentTotal = 0`, each payment whose status is in the active
set adds its `days` and `amount`.  `ActiveWorkPeriodPaymentStatuses` lives in
`app-constants`, outside the excerpt, so the active set is a parameter. -/
def aggregate (activeStatuses : List String) (payments : List WorkPeriodPayment) :
    Int × Int :=
  payments.foldl
    (fun acc payment =>
      if payment.status ∈ activeStatuses then (acc.1 + payment.days, acc.2 + payment.amount)
      else acc)
    (0, 0)

/-- A work period snapshot without the payments association:
`_.omit(updated.toJSON(), 'payments')`. -/
structure Snapshot where
  id : String
  resourceBookingId : String
  daysPaid : Int
  paymentTotal : Int
  paymentStatus : String
deriving DecidableEq, Repr

/-- Drop the payments association from a work period. -/
def snapshotOf (wp : WorkPeriod) : Snapshot :=
  { id := wp.id, resourceBookingId := wp.resourceBookingId, daysPaid := wp.daysPaid,
    paymentTotal := wp.paymentTotal, paymentStatus := wp.paymentStatus }

/-- One `postEvent` call on the work-period-update topic: the payload (the new
snapshot), the `oldValue` option (the previously loaded work period, payments
included), and the `key` option (the partition key string). -/
structure PostedEvent where
  payload : Snapshot
  oldValue : WorkPeriod
  key : String
deriving DecidableEq, Repr

/-- The observable outcome of one reconciliation pass: the persistence writes
performed, the events posted, and the work period as stored afterwards. -/
structure ReconcileResult where
  writes : List UpdateData
  events : List PostedEvent
  finalPeriod : WorkPeriod
deriving DecidableEq, Repr

/-- `workPeriodModel.update(data)`: set the three derived fields, keep the
rest (the payments association in particular). -/
def applyUpdate (wp : WorkPeriod) (d : UpdateData) : WorkPeriod :=
  { wp with daysPaid := d.daysPaid, paymentTotal := d.paymentTotal,
            paymentStatus := d.paymentStatus }

/-- Modelled from the spec: `helper.calculateWorkPeriodPaymentStatus` is not
among the excerpted sources; the spec injects it as a policy
`decide(aggregate, durationWeeks, previousStatus) -> statusLabel` whose rules
it deliberately leaves unspecified.  The reconciler is therefore parameterized
by an arbitrary function of exactly what the handler passes:
`_.assign({}, workPeriod, data)` at the point where `data` holds the fresh
`daysPaid` and `paymentTotal` — the stored record with those two fields
replaced and `paymentStatus` still the stored one. -/
def StatusPolicy : Type := WorkPeriod → String

/-- `updateWorkPeriod` of `WorkPeriodPaymentEventHandler.js`, from the point
where the owning work period has been loaded with its payments: recompute the
aggregates, derive the payment status through the injected policy, and either
ignore (stored values all equal) or persist the three fields and post one
event keyed by the owning resource booking. -/
def updateWorkPeriod (activeStatuses : List String) (policy : StatusPolicy)
    (workPeriod : WorkPeriod) : ReconcileResult :=
  let agg := aggregate activeStatuses workPeriod.payments
  let merged : WorkPeriod := { workPeriod with daysPaid := agg.1, paymentTotal := agg.2 }
  let data : UpdateData :=
    { daysPaid := agg.1, paymentTotal := agg.2, paymentStatus := policy merged }
  if workPeriod.daysPaid = data.daysPaid ∧ workPeriod.paymentTotal = data.paymentTotal ∧
      workPeriod.paymentStatus = data.paymentStatus then
    { writes := [], events := [], finalPeriod := workPeriod }
  else
    let updated := applyUpdate workPeriod data
    { writes := [data],
      events := [{ payload := snapshotOf updated, oldValue := workPeriod,
                   key := "resourceBooking.id:" ++ workPeriod.resourceBookingId }],
      finalPeriod := updated }

/-- `processCreate` delegates to `updateWorkPeriod`. -/
def processCreate (activeStatuses : List String) (policy : StatusPolicy)
    (workPeriod : WorkPeriod) : ReconcileResult :=
  updateWorkPeriod activeStatuses policy workPeriod

/-- `processUpdate` delegates to `updateWorkPeriod`. -/
def processUpdate (activeStatuses : List String) (policy : StatusPolicy)
    (workPeriod : WorkPeriod) : ReconcileResult :=
  updateWorkPeriod activeStatuses policy workPeriod

/-! ## Shared helper lemmas -/

/-- A truthy duration field is a present, nonzero value. -/
lemma truthyDur_some {o : Option Int} (h : truthyDur o = true) : ∃ v, o = some v ∧ v ≠ 0 := by
  cases o with
  | none => simp [truthyDur] at h
  | some v => exact ⟨v, rfl, by simpa [truthyDur] using h⟩

/-- How many of the three duration fields the guards of `calculateDuration`
treat as supplied (present and truthy). -/
def suppliedFieldCount (t : Triple) : Nat :=
  (if truthyDate t.startDate then 1 else 0) + (if truthyDate t.endDate then 1 else 0) +
    (if truthyDur t.duration then 1 else 0)

/-- With fewer than two supplied fields every branch guard of
`calculateDuration` fails and the function returns the empty object. -/
lemma calculateDuration_insufficient (t : Triple) (h : suppliedFieldCount t < 2) :
    calculateDuration t = Except.ok {} := by
  unfold calculateDuration
  split_ifs with h1 h2 h3 h4 h5
  · obtain ⟨a, b, c⟩ := h1
    simp [suppliedFieldCount, a, c] at h
    split_ifs at h
    all_goals omega
  · obtain ⟨a, b, c⟩ := h2
    simp [suppliedFieldCount, b, c] at h
    split_ifs at h
    all_goals omega
  · obtain ⟨a, b⟩ := h3
    simp [suppliedFieldCount, a, b] at h
  · obtain ⟨a, b⟩ := h3
    simp [suppliedFieldCount, a, b] at h
  · obtain ⟨a, b⟩ := h3
    simp [suppliedFieldCount, a, b] at h
  · rfl

/-- Membership in `modifiedFields` is exactly the truthy-and-differing test. -/
lemma mem_modifiedFields {original : Triple} {p : Patch} {f : DField} :
    f ∈ modifiedFields original p ↔
      fieldTruthy p f = true ∧ patchVal p f ≠ origVal original f := by
  cases f <;> simp [modifiedFields, allFields, List.mem_filter, bne_iff_ne]

/-- A truthy patch field is physically present. -/
lemma fieldTruthy_isSome {p : Patch} {f : DField} (h : fieldTruthy p f = true) :
    (patchVal p f).isSome = true := by
  cases f
  · cases hp : p.startDate <;> simp_all [fieldTruthy, patchVal, truthyDate]
  · cases hp : p.endDate <;> simp_all [fieldTruthy, patchVal, truthyDate]
  · cases hp : p.duration <;> simp_all [fieldTruthy, patchVal, truthyDur]

/-- The aggregation fold, started from any accumulator, adds the filtered
sums of days and amounts. -/
lemma aggregate_foldl (active : List String) (ps : List WorkPeriodPayment) (a b : Int) :
    ps.foldl
      (fun acc payment =>
        if payment.status ∈ active then (acc.1 + payment.days, acc.2 + payment.amount)
        else acc)
      (a, b) =
    (a + ((ps.filter (fun q => q.status ∈ active)).map WorkPeriodPayment.days).sum,
     b + ((ps.filter (fun q => q.status ∈ active)).map WorkPeriodPayment.amount).sum) := by
  induction ps generalizing a b with
  | nil => simp
  | cons hd tl ih =>
    by_cases h : hd.status ∈ active <;>
      simp [List.filter_cons, h, ih, add_assoc]

/-! ## C1 -/

/-- C1: whenever the recomputed `daysPaid`, `paymentTotal` and `paymentStatus`
all equal the values stored on the owning work period, the reconciliation
pass of the payment-event handler terminates as Unchanged: it performs no
persistence write, posts no event, and leaves the stored period exactly as it
was; `processCreate` and `processUpdate` are both exactly this pass. -/
theorem updateWorkPeriod_unchanged (active : List String) (policy : StatusPolicy)
    (wp : WorkPeriod)
    (h1 : wp.daysPaid = (aggregate active wp.payments).1)
    (h2 : wp.paymentTotal = (aggregate active wp.payments).2)
    (h3 : wp.paymentStatus =
      policy { wp with daysPaid := (aggregate active wp.payments).1,
                       paymentTotal := (aggregate active wp.payments).2 }) :
    updateWorkPeriod active policy wp =
      { writes := [], events := [], finalPeriod := wp } ∧
    processCreate active policy wp = updateWorkPeriod active policy wp ∧
    processUpdate active policy wp = updateWorkPeriod active policy wp := by
  refine ⟨?_, rfl, rfl⟩
  unfold updateWorkPeriod
  rw [if_pos ⟨h1, h2, h3⟩]

/-- Witness for C1: the stored aggregates `{daysPaid 5, paymentTotal 500,
status Partial}` are recomputed identically, so the pass is a no-op. -/
theorem updateWorkPeriod_unchanged_witness :
    updateWorkPeriod ["Active"] (fun _ => "Partial")
      { id := "w1", resourceBookingId := "rb1", daysPaid := 5, paymentTotal := 500,
        paymentStatus := "Partial",
        payments := [{ status := "Active", days := 5, amount := 500 },
                     { status := "Cancelled", days := 3, amount := 300 }] } =
      { writes := [], events := [],
        finalPeriod :=
          { id := "w1", resourceBookingId := "rb1", daysPaid := 5, paymentTotal := 500,
            paymentStatus := "Partial",
            payments := [{ status := "Active", days := 5, amount := 500 },
                         { status := "Cancelled", days := 3, amount := 300 }] } } :=
  (updateWorkPeriod_unchanged ["Active"] (fun _ => "Partial") _
    (by decide) (by decide) rfl).1

/-! ## C2 -/

/-- A status policy that flips between two labels on every application. -/
def flipPolicy : StatusPolicy :=
  fun wp => if wp.paymentStatus = "a" then "b" else "a"

/-- A work period whose aggregates already match but whose status the
flipping policy keeps rewriting. -/
def wpIdem : WorkPeriod :=
  { id := "w1", resourceBookingId := "rb1", daysPaid := 0, paymentTotal := 0,
    paymentStatus := "a", payments := [] }

/-- C2 (counterexample): with the status policy left arbitrary (it is not in
the excerpted sources), the second invocation of the reconciler after a
successful persist need not land in Unchanged: under a policy whose decision
flips with the previously stored status, the second pass — with the payment
set unchanged — writes and posts again. -/
theorem updateWorkPeriod_idempotence_counterexample :
    ((updateWorkPeriod [] flipPolicy wpIdem).finalPeriod).payments = wpIdem.payments ∧
    (updateWorkPeriod [] flipPolicy
      ((updateWorkPeriod [] flipPolicy wpIdem).finalPeriod)).writes ≠ [] ∧
    (updateWorkPeriod [] flipPolicy
      ((updateWorkPeriod [] flipPolicy wpIdem).finalPeriod)).events ≠ [] := by
  refine ⟨by decide, by decide, by decide⟩

/-- C2 (amended): for every status policy that is stable under its own output
— its decision on a period whose stored status has been replaced by that very
decision is unchanged, as is the case for any policy ignoring the previous
status — running the reconciler a second time on the period it left behind,
with the payment set unchanged, lands in Unchanged: zero writes, zero events,
no further state change, regardless of whether the first run persisted. -/
theorem updateWorkPeriod_idempotent_of_stable (active : List String) (policy : StatusPolicy)
    (hstable : ∀ w : WorkPeriod, policy { w with paymentStatus := policy w } = policy w)
    (wp : WorkPeriod) :
    updateWorkPeriod active policy ((updateWorkPeriod active policy wp).finalPeriod) =
      { writes := [], events := [],
        finalPeriod := (updateWorkPeriod active policy wp).finalPeriod } := by
  by_cases hguard : wp.daysPaid = (aggregate active wp.payments).1 ∧
      wp.paymentTotal = (aggregate active wp.payments).2 ∧
      wp.paymentStatus =
        policy { wp with daysPaid := (aggregate active wp.payments).1,
                         paymentTotal := (aggregate active wp.payments).2 }
  · have h1 : updateWorkPeriod active policy wp =
        { writes := [], events := [], finalPeriod := wp } := by
      unfold updateWorkPeriod
      rw [if_pos hguard]
    rw [h1]
    exact h1
  · have h1 : (updateWorkPeriod active policy wp).finalPeriod = applyUpdate wp
        { daysPaid := (aggregate active wp.payments).1,
          paymentTotal := (aggregate active wp.payments).2,
          paymentStatus :=
            policy { wp with daysPaid := (aggregate active wp.payments).1,
                             paymentTotal := (aggregate active wp.payments).2 } } := by
      unfold updateWorkPeriod
      rw [if_neg hguard]
    rw [h1]
    unfold updateWorkPeriod
    rw [if_pos]
    refine ⟨rfl, rfl, ?_⟩
    exact (hstable { wp with daysPaid := (aggregate active wp.payments).1,
                             paymentTotal := (aggregate active wp.payments).2 }).symm

/-- Witness for C2 (amended): a constant policy is stable, and after the
first pass persists, the second pass is a no-op. -/
theorem updateWorkPeriod_idempotent_of_stable_witness :
    updateWorkPeriod [] (fun _ => "completed")
        ((updateWorkPeriod [] (fun _ => "completed") wpIdem).finalPeriod) =
      { writes := [], events := [],
        finalPeriod := (updateWorkPeriod [] (fun _ => "completed") wpIdem).finalPeriod } :=
  updateWorkPeriod_idempotent_of_stable [] (fun _ => "completed") (fun _ => rfl) wpIdem
/-! ## C3 -/

/-- A stored work period whose recomputed `daysPaid` and `paymentStatus`
equal the stored ones while `paymentTotal` differs, so the pass persists. -/
def wpPersistCex : WorkPeriod :=
  { id := "w1", resourceBookingId := "rb1", daysPaid := 5, paymentTotal := 400,
    paymentStatus := "Partial",
    payments := [{ status := "Active", days := 5, amount := 500 }] }

/-- C3 (counterexample): on a pass where only `paymentTotal` changed, the
single write still carries `daysPaid` and `paymentStatus` with their
unchanged stored values — the handler does not write only the changed
fields — and the partition key of the posted event is the string
`resourceBooking.id:` followed by the booking identifier, not the bare
identifier. -/
theorem updateWorkPeriod_onlyChanged_counterexample :
    (updateWorkPeriod ["Active"] (fun _ => "Partial") wpPersistCex).writes.map
        UpdateData.daysPaid = [wpPersistCex.daysPaid] ∧
    (updateWorkPeriod ["Active"] (fun _ => "Partial") wpPersistCex).writes.map
        UpdateData.paymentStatus = [wpPersistCex.paymentStatus] ∧
    (updateWorkPeriod ["Active"] (fun _ => "Partial") wpPersistCex).writes ≠ [] ∧
    (updateWorkPeriod ["Active"] (fun _ => "Partial") wpPersistCex).events.map
        PostedEvent.key = ["resourceBooking.id:" ++ wpPersistCex.resourceBookingId] ∧
    "resourceBooking.id:" ++ wpPersistCex.resourceBookingId ≠
      wpPersistCex.resourceBookingId := by
  refine ⟨by decide, by decide, by decide, by decide, by decide⟩

/-- C3 (amended): whenever at least one of the recomputed `daysPaid`,
`paymentTotal`, `paymentStatus` differs from the stored values, the pass
performs exactly one write carrying the full recomputed derived triple
(including members equal to their stored values) and posts exactly one event
whose payload is the updated period snapshot without the payments
association, whose `oldValue` is the previously loaded period, and whose
partition key is the string `resourceBooking.id:` followed by the owning
resource booking's identifier. -/
theorem updateWorkPeriod_persist (active : List String) (policy : StatusPolicy)
    (wp : WorkPeriod)
    (h : ¬ (wp.daysPaid = (aggregate active wp.payments).1 ∧
            wp.paymentTotal = (aggregate active wp.payments).2 ∧
            wp.paymentStatus =
              policy { wp with daysPaid := (aggregate active wp.payments).1,
                               paymentTotal := (aggregate active wp.payments).2 })) :
    updateWorkPeriod active policy wp =
      { writes := [{ daysPaid := (aggregate active wp.payments).1,
                     paymentTotal := (aggregate active wp.payments).2,
                     paymentStatus :=
                       policy { wp with daysPaid := (aggregate active wp.payments).1,
                                        paymentTotal := (aggregate active wp.payments).2 } }],
        events := [{
          payload := snapshotOf (applyUpdate wp
            { daysPaid := (aggregate active wp.payments).1,
              paymentTotal := (aggregate active wp.payments).2,
              paymentStatus :=
                policy { wp with daysPaid := (aggregate active wp.payments).1,
                                 paymentTotal := (aggregate active wp.payments).2 } }),
          oldValue := wp,
          key := "resourceBooking.id:" ++ wp.resourceBookingId }],
        finalPeriod := applyUpdate wp
          { daysPaid := (aggregate active wp.payments).1,
            paymentTotal := (aggregate active wp.payments).2,
            paymentStatus :=
              policy { wp with daysPaid := (aggregate active wp.payments).1,
                               paymentTotal := (aggregate active wp.payments).2 } } } := by
  unfold updateWorkPeriod
  rw [if_neg h]

/-- Witness for C3 (amended): a new payment raises `paymentTotal` from 400 to
500; the pass persists the derived triple and posts one keyed event. -/
theorem updateWorkPeriod_persist_witness :
    updateWorkPeriod ["Active"] (fun _ => "Partial")
      { id := "w1", resourceBookingId := "rb1", daysPaid := 5, paymentTotal := 400,
        paymentStatus := "Partial",
        payments := [{ status := "Active", days := 5, amount := 500 }] } =
      { writes := [{ daysPaid := 5, paymentTotal := 500, paymentStatus := "Partial" }],
        events := [{
          payload := { id := "w1", resourceBookingId := "rb1", daysPaid := 5,
                       paymentTotal := 500, paymentStatus := "Partial" },
          oldValue :=
            { id := "w1", resourceBookingId := "rb1", daysPaid := 5, paymentTotal := 400,
              paymentStatus := "Partial",
              payments := [{ status := "Active", days := 5, amount := 500 }] },
          key := "resourceBooking.id:rb1" }],
        finalPeriod :=
          { id := "w1", resourceBookingId := "rb1", daysPaid := 5, paymentTotal := 500,
            paymentStatus := "Partial",
            payments := [{ status := "Active", days := 5, amount := 500 }] } } :=
  updateWorkPeriod_persist ["Active"] (fun _ => "Partial") _ (by decide)

/-! ## C4 -/

/-- C4: every full triple returned by `calculateDuration` — from
start+duration, from end+duration, or from start+end — satisfies
`endDate - startDate = duration * weekMs` exactly. -/
theorem calculateDuration_full_triple (t r : Triple) (s e d : Int)
    (h : calculateDuration t = Except.ok r) (hs : r.startDate = some s)
    (he : r.endDate = some e) (hd : r.duration = some d) :
    e - s = d * weekMs := by
  unfold calculateDuration at h
  split_ifs at h with h1 h2 h3 h4 h5
  · obtain rfl := Except.ok.inj h
    rw [hs, hd] at he
    simp only [Option.getD_some, Option.some.injEq] at he
    linarith
  · obtain rfl := Except.ok.inj h
    rw [he, hd] at hs
    simp only [Option.getD_some, Option.some.injEq] at hs
    linarith
  · obtain rfl := Except.ok.inj h
    push_neg at h4
    obtain ⟨hdvd, hge⟩ := h4
    simp only [Option.some.injEq] at hd
    rw [hs, he, Option.getD_some, Option.getD_some] at hdvd hd
    subst hd
    rw [Int.ediv_mul_cancel hdvd]
  · obtain rfl := Except.ok.inj h
    simp at hs

/-- Witness for C4: start 0 with duration 3 yields end `3 * weekMs`. -/
theorem calculateDuration_full_triple_witness :
    (1814400000 : Int) - 0 = 3 * weekMs :=
  calculateDuration_full_triple { startDate := some 0, duration := some 3 }
    { startDate := some 0, endDate := some 1814400000, duration := some 3 }
    0 1814400000 3 rfl rfl rfl rfl
/-! ## C5 -/

/-- C5: the aggregation sums `days` and `amount` over exactly the payments
whose status lies in the active set; the empty sequence yields `(0, 0)`; the
result is invariant under any permutation of the payments; and on the
payments `[{Active, 5, 500}, {Cancelled, 3, 300}]` with active set
`{Active}` it yields `(5, 500)`. -/
theorem aggregate_spec :
    (∀ (active : List String) (ps : List WorkPeriodPayment),
      aggregate active ps =
        (((ps.filter (fun q => q.status ∈ active)).map WorkPeriodPayment.days).sum,
         ((ps.filter (fun q => q.status ∈ active)).map WorkPeriodPayment.amount).sum)) ∧
    (∀ active : List String, aggregate active [] = (0, 0)) ∧
    (∀ (active : List String) (ps qs : List WorkPeriodPayment), List.Perm ps qs →
      aggregate active ps = aggregate active qs) ∧
    aggregate ["Active"]
      [{ status := "Active", days := 5, amount := 500 },
       { status := "Cancelled", days := 3, amount := 300 }] = (5, 500) := by
  have hchar : ∀ (active : List String) (ps : List WorkPeriodPayment),
      aggregate active ps =
        (((ps.filter (fun q => q.status ∈ active)).map WorkPeriodPayment.days).sum,
         ((ps.filter (fun q => q.status ∈ active)).map WorkPeriodPayment.amount).sum) := by
    intro active ps
    unfold aggregate
    rw [aggregate_foldl]
    simp
  refine ⟨hchar, fun active => rfl, ?_, by rfl⟩
  intro active ps qs hperm
  rw [hchar, hchar]
  have hf := hperm.filter (fun q => decide (q.status ∈ active))
  exact congrArg₂ Prod.mk
    ((hf.map WorkPeriodPayment.days).sum_eq)
    ((hf.map WorkPeriodPayment.amount).sum_eq)

/-- Witness for C5: swapping the two payments leaves the aggregate fixed. -/
theorem aggregate_spec_witness :
    aggregate ["Active"]
      [{ status := "Active", days := 5, amount := 500 },
       { status := "Cancelled", days := 3, amount := 300 }] =
    aggregate ["Active"]
      [{ status := "Cancelled", days := 3, amount := 300 },
       { status := "Active", days := 5, amount := 500 }] :=
  aggregate_spec.2.2.1 ["Active"] _ _ (by decide)

/-! ## C6 -/

/-- C6: with both dates supplied (and any supplied duration a positive
integer, as the data model requires), `calculateDuration` fails with the
range error exactly when the gap is not a positive whole number of weeks,
fails with the conflict error exactly when the range is valid and a supplied
duration differs from the actual duration, and otherwise returns the
completed triple; with fewer than two supplied fields it returns the empty
no-op object and raises no error. -/
theorem calculateDuration_both_dates (s e : Int) (dur : Option Int)
    (hdur : ∀ x, dur = some x → 0 < x) :
    (calculateDuration { startDate := some s, endDate := some e, duration := dur } =
        Except.error CalcError.invalidRange ↔
      ¬ (weekMs ∣ (e - s)) ∨ e - s < weekMs) ∧
    (calculateDuration { startDate := some s, endDate := some e, duration := dur } =
        Except.error CalcError.conflict ↔
      (weekMs ∣ (e - s)) ∧ weekMs ≤ e - s ∧ ∃ x, dur = some x ∧ x ≠ (e - s) / weekMs) ∧
    ((weekMs ∣ (e - s)) → weekMs ≤ e - s → (∀ x, dur = some x → x = (e - s) / weekMs) →
      calculateDuration { startDate := some s, endDate := some e, duration := dur } =
        Except.ok { startDate := some s, endDate := some e,
                    duration := some ((e - s) / weekMs) }) ∧
    (∀ t : Triple, suppliedFieldCount t < 2 → calculateDuration t = Except.ok {}) := by
  refine ⟨?_, ?_, ?_, fun t ht => calculateDuration_insufficient t ht⟩ <;>
    unfold calculateDuration <;>
    simp only [truthyDate, Option.getD_some, not_true, false_and, and_false, true_and,
      and_true, if_false, if_true, ite_false, ite_true]
  · by_cases hA : ¬ (weekMs ∣ (e - s)) ∨ e - s < weekMs
    · simp [hA]
    · rw [if_neg hA]
      by_cases hB : truthyDur dur = true ∧ (e - s) / weekMs ≠ dur.getD 0
      · simp [hB, hA]
      · rw [if_neg hB]
        simp [hA]
  · by_cases hA : ¬ (weekMs ∣ (e - s)) ∨ e - s < weekMs
    · rw [if_pos hA]
      constructor
      · intro hcon
        exact absurd hcon (by simp)
      · rintro ⟨hdvd, hle, _⟩
        rcases hA with hA | hA
        · exact absurd hdvd hA
        · omega
    · rw [if_neg hA]
      push_neg at hA
      obtain ⟨hdvd, hle⟩ := hA
      by_cases hB : truthyDur dur = true ∧ (e - s) / weekMs ≠ dur.getD 0
      · rw [if_pos hB]
        obtain ⟨x, hx, hx0⟩ := truthyDur_some hB.1
        subst hx
        constructor
        · intro _
          refine ⟨hdvd, by omega, x, rfl, ?_⟩
          simpa using (hB.2 ∘ Eq.symm)
        · intro _
          rfl
      · rw [if_neg hB]
        constructor
        · intro hcon
          exact absurd hcon (by simp)
        · rintro ⟨_, _, x, rfl, hx⟩
          push_neg at hB
          have hx0 : x ≠ 0 := by
            have := hdur x rfl
            omega
          have hfx : (e - s) / weekMs = x := by
            simpa using hB (by simp [truthyDur, hx0])
          exact absurd hfx.symm hx
  · intro hdvd hle heq
    rw [if_neg (by push_neg; exact ⟨hdvd, by omega⟩)]
    rw [if_neg ?hc]
    case hc =>
      rintro ⟨ht, hne⟩
      obtain ⟨x, hx, hx0⟩ := truthyDur_some ht
      subst hx
      exact hne (by simpa using (heq x rfl).symm)

/-- Witness for C6: start 2021-01-01, end 2021-01-08, duration 2 — the actual
gap is one week, so the call fails with the conflict error. -/
theorem calculateDuration_both_dates_witness :
    calculateDuration
      { startDate := some 1609459200000, endDate := some 1610064000000,
        duration := some 2 } = Except.error CalcError.conflict :=
  ((calculateDuration_both_dates 1609459200000 1610064000000 (some 2)
      (fun x hx => by cases hx; norm_num)).2.1).mpr
    ⟨by decide, by decide, 2, rfl, by decide⟩
/-! ## C7 -/

/-- C7 (counterexample): a patch `{duration: 0}` against the original
`{start 0, end weekMs, duration 1}` carries one present, differing field, yet
`updateDuration` returns the empty object instead of the single-field
recompute (whose value the second conjunct shows); and a two-key patch
`{startDate: 2*weekMs, duration: 0}`, whose multi-field recompute has fewer
than two usable fields, also yields the empty object rather than surfacing a
validation error. -/
theorem updateDuration_spec_deviation_counterexample :
    updateDuration { startDate := some 0, endDate := some weekMs, duration := some 1 }
        { startDate := none, endDate := none, duration := some 0, extraKeys := 0 } =
      Except.ok (some {}) ∧
    (calculateDuration (singleFieldInput
        { startDate := some 0, endDate := some weekMs, duration := some 1 }
        { startDate := none, endDate := none, duration := some 0, extraKeys := 0 }
        DField.duration)).map some =
      Except.ok (some { startDate := some 0, endDate := some weekMs, duration := some 1 }) ∧
    updateDuration { startDate := some 0, endDate := some weekMs, duration := some 1 }
        { startDate := some (2 * weekMs), endDate := none, duration := some 0, extraKeys := 0 } =
      Except.ok (some {}) := by
  refine ⟨by rfl, by rfl, by rfl⟩

/-- C7 (amended): `updateDuration` detects modification with a truthiness
test — if no patch field is both truthy and different from the original it
returns the empty object; if a field is modified and exactly one key is
present in the patch it returns `calculateDuration` of that field joined with
the other two original fields; if more than one key is present it returns
`calculateDuration` of the patch's duration fields alone, and when those
leave fewer than two supplied fields the empty no-op object is returned as
the result (no error is raised). -/
theorem updateDuration_branch_semantics (original : Triple) (p : Patch) :
    (modifiedFields original p = [] → updateDuration original p = Except.ok (some {})) ∧
    (∀ f0 rest, modifiedFields original p = f0 :: rest → fieldsCount p = 1 →
      updateDuration original p = (calculateDuration (singleFieldInput original p f0)).map some) ∧
    (modifiedFields original p ≠ [] → 1 < fieldsCount p →
      updateDuration original p = (calculateDuration (patchTriple p)).map some) ∧
    (modifiedFields original p ≠ [] → 1 < fieldsCount p →
      suppliedFieldCount (patchTriple p) < 2 →
      updateDuration original p = Except.ok (some {})) := by
  refine ⟨?_, ?_, ?_, ?_⟩
  · intro h
    unfold updateDuration
    rw [h]
  · intro f0 rest h h1
    unfold updateDuration
    rw [h]
    simp [h1]
  · intro h h1
    rcases hm : modifiedFields original p with _ | ⟨f0, rest⟩
    · exact absurd hm h
    · simp only [updateDuration, hm]
      rw [if_neg (show ¬ fieldsCount p = 1 by omega), if_pos h1]
  · intro h h1 hsup
    rcases hm : modifiedFields original p with _ | ⟨f0, rest⟩
    · exact absurd hm h
    · simp only [updateDuration, hm]
      rw [if_neg (show ¬ fieldsCount p = 1 by omega), if_pos h1,
        calculateDuration_insufficient _ hsup]
      rfl

/-- Witness for C7 (amended): a lone changed `duration: 2` against
`{start 0, end weekMs, duration 1}` runs the single-field recompute. -/
theorem updateDuration_branch_semantics_witness :
    updateDuration { startDate := some 0, endDate := some weekMs, duration := some 1 }
        { startDate := none, endDate := none, duration := some 2, extraKeys := 0 } =
      (calculateDuration (singleFieldInput
        { startDate := some 0, endDate := some weekMs, duration := some 1 }
        { startDate := none, endDate := none, duration := some 2, extraKeys := 0 }
        DField.duration)).map some :=
  (updateDuration_branch_semantics
    { startDate := some 0, endDate := some weekMs, duration := some 1 }
    { startDate := none, endDate := none, duration := some 2, extraKeys := 0 }).2.1
    DField.duration [] (by rfl) (by rfl)

/-! ## C8 -/

/-- C8: for every start date and positive duration `d`, computing the end
date from start+duration and then feeding start+end back into the calculator
returns duration `d` again. -/
theorem calculateDuration_roundTrip (s d : Int) (hd : 0 < d) :
    ∃ e : Int,
      calculateDuration { startDate := some s, endDate := none, duration := some d } =
        Except.ok { startDate := some s, endDate := some e, duration := some d } ∧
      calculateDuration { startDate := some s, endDate := some e, duration := none } =
        Except.ok { startDate := some s, endDate := some e, duration := some d } := by
  have hw : (0 : Int) < weekMs := by norm_num [weekMs]
  refine ⟨s + d * weekMs, ?_, ?_⟩
  · unfold calculateDuration
    simp [truthyDate, truthyDur, hd.ne']
  · unfold calculateDuration
    split_ifs with h1 h2 h3 h4 h5
    · exact absurd h1 (by simp [truthyDate])
    · exact absurd h2 (by simp [truthyDate])
    · exfalso
      simp only [Option.getD_some, add_sub_cancel_left] at h4
      rcases h4 with h4 | h4
      · exact h4 ⟨d, mul_comm d weekMs ▸ rfl⟩
      · have : weekMs ≤ d * weekMs := le_mul_of_one_le_left hw.le hd
        omega
    · exact absurd h5 (by simp [truthyDur])
    · simp only [Option.getD_some, add_sub_cancel_left, Except.ok.injEq, Triple.mk.injEq,
        Option.some.injEq]
      exact ⟨trivial, trivial, Int.mul_ediv_cancel d (by positivity)⟩
    · exact absurd (by simp [truthyDate]) h3

/-- Witness for C8: the round trip at start 0 and duration 3. -/
theorem calculateDuration_roundTrip_witness :
    ∃ e : Int,
      calculateDuration { startDate := some 0, endDate := none, duration := some 3 } =
        Except.ok { startDate := some 0, endDate := some e, duration := some 3 } ∧
      calculateDuration { startDate := some 0, endDate := some e, duration := none } =
        Except.ok { startDate := some 0, endDate := some e, duration := some 3 } :=
  calculateDuration_roundTrip 0 3 (by norm_num)
/-! ## C9 -/

/-- C9: a patch field whose value is falsy (for example `duration: 0`) is
never counted as a modified field, because modification is detected with a
truthiness test; consequently a patch whose only differing fields carry falsy
values makes `updateDuration` return the empty no-op object, with no
recompute and no error, even though the supplied value differs. -/
theorem updateDuration_falsy (original : Triple) (p : Patch) :
    (∀ f, fieldTruthy p f = false → f ∉ modifiedFields original p) ∧
    ((∀ f, (patchVal p f).isSome = true → patchVal p f ≠ origVal original f →
        fieldTruthy p f = false) →
      updateDuration original p = Except.ok (some {})) := by
  constructor
  · intro f hf hmem
    rw [mem_modifiedFields] at hmem
    rw [hf] at hmem
    exact absurd hmem.1 (by simp)
  · intro hfal
    have hmf : modifiedFields original p = [] := by
      rw [List.eq_nil_iff_forall_not_mem]
      intro f hmem
      rw [mem_modifiedFields] at hmem
      obtain ⟨ht, hne⟩ := hmem
      have hff := hfal f (fieldTruthy_isSome ht) hne
      rw [hff] at ht
      exact absurd ht (by simp)
    unfold updateDuration
    rw [hmf]

/-- Witness for C9: the patch `{duration: 0}` differs from the stored
duration 1 yet produces the empty no-op object. -/
theorem updateDuration_falsy_witness :
    updateDuration { startDate := some 0, endDate := some weekMs, duration := some 1 }
        { startDate := none, endDate := none, duration := some 0, extraKeys := 0 } =
      Except.ok (some {}) :=
  (updateDuration_falsy
    { startDate := some 0, endDate := some weekMs, duration := some 1 }
    { startDate := none, endDate := none, duration := some 0, extraKeys := 0 }).2
    (fun f hsome hne => by cases f <;> simp_all [patchVal, fieldTruthy, truthyDur])

/-! ## C10 -/

/-- C10: `fieldsCount` counts every enumerable key of the patch, so a patch
with exactly one changed duration field plus at least one unrelated key runs
the multi-field branch, feeding `calculateDuration` the patch alone; the
closed conjuncts show a concrete such call returning the empty
insufficient-data object while the single-field recompute from the original
would have produced a full triple. -/
theorem updateDuration_extraKeys_multiBranch (original : Triple) (p : Patch) (f0 : DField)
    (hm : modifiedFields original p = [f0]) (hx : 0 < p.extraKeys) :
    updateDuration original p = (calculateDuration (patchTriple p)).map some ∧
    updateDuration { startDate := some 0, endDate := none, duration := some 1 }
        { startDate := none, endDate := none, duration := some 2, extraKeys := 1 } =
      Except.ok (some {}) ∧
    (calculateDuration (singleFieldInput
        { startDate := some 0, endDate := none, duration := some 1 }
        { startDate := none, endDate := none, duration := some 2, extraKeys := 1 }
        DField.duration)).map some =
      Except.ok (some { startDate := some 0, endDate := some (2 * weekMs),
                        duration := some 2 }) := by
  refine ⟨?_, by rfl, by rfl⟩
  have hf0 : f0 ∈ modifiedFields original p := by
    rw [hm]
    exact List.mem_singleton_self f0
  have ht := (mem_modifiedFields.mp hf0).1
  have hpres := fieldTruthy_isSome ht
  have hcount : 1 < fieldsCount p := by
    cases f0 <;> simp only [patchVal] at hpres <;> simp [fieldsCount, hpres] <;> omega
  simp only [updateDuration, hm]
  rw [if_neg (show ¬ fieldsCount p = 1 by omega), if_pos hcount]

/-- Witness for C10: the patch `{duration: 2}` with one unrelated key against
`{start 0, duration 1}` runs the multi-field branch on the patch alone. -/
theorem updateDuration_extraKeys_multiBranch_witness :
    updateDuration { startDate := some 0, endDate := none, duration := some 1 }
        { startDate := none, endDate := none, duration := some 2, extraKeys := 1 } =
      (calculateDuration (patchTriple
        { startDate := none, endDate := none, duration := some 2, extraKeys := 1 })).map some :=
  (updateDuration_extraKeys_multiBranch
    { startDate := some 0, endDate := none, duration := some 1 }
    { startDate := none, endDate := none, duration := some 2, extraKeys := 1 }
    DField.duration (by rfl) (by norm_num)).1

end Taas
